import Mathlib

/-!
Verification of the swift-inspector compilation-stage orchestrator and its
web client against the repository specification.

The frontend definitions below are translated from
src/web/frontend/src/App.tsx (the React client).  The backend core
(Process Runner, Stage Catalog, Demangling Post-Processor, Orchestrator)
lives under web/backend in the real repository but is not part of the
sources provided here, so those components are modelled from the spec;
each such definition carries a doc comment saying so.
-/

/-- The six stage keys, translated from the ViewKey union type in App.tsx. -/
inductive ViewKey
  | silRaw
  | silCanonical
  | ast
  | parse
  | ir
  | assembly
deriving DecidableEq

/-- One stage's result as the frontend receives it, translated from the
CompileResult type in App.tsx: fields label, command, exitCode, output. -/
structure CompileResult where
  label : String
  command : String
  exitCode : Int
  output : String
deriving DecidableEq

/-- The compile response shape, translated from the CompileResponse type in
App.tsx: a record mapping every stage key to a CompileResult. -/
structure CompileResponse where
  results : ViewKey → CompileResult

/-- The default tab display order, translated from VIEW_ORDER in App.tsx. -/
def VIEW_ORDER : List ViewKey :=
  [.ast, .parse, .silRaw, .silCanonical, .ir, .assembly]

/-- Translated from formatCommandStatus in App.tsx. -/
def formatCommandStatus (isLoading : Bool) (result : Option CompileResult) : String :=
  if isLoading then
    "Running..."
  else
    match result with
    | none => "Command pending"
    | some r => if r.exitCode = 0 then "Success" else "Exit code " ++ toString r.exitCode

/-- Whether a tab shows the failure marker, translated from the tab rendering
in App.tsx: the alert is shown when a result exists and its exitCode is
nonzero. -/
def tabAlert (result : Option CompileResult) : Bool :=
  match result with
  | none => false
  | some r => r.exitCode != 0

/-- A JSON scalar as it appears in the compile request body. -/
inductive JsonVal
  | str (s : String)
  | bool (b : Bool)
deriving DecidableEq

/-- The request body object built by runCompile in App.tsx; the Lean field
names mirror the JSON keys of the object literal passed to JSON.stringify:
source, demangle, optimize, moduleOptimize, parseAsLibrary. -/
structure CompileRequestBody where
  source : String
  demangle : Bool
  optimize : Bool
  moduleOptimize : Bool
  parseAsLibrary : Bool
deriving DecidableEq

/-- The key/value pairs of the serialized request body, in the insertion
order of the object literal in runCompile (JSON.stringify preserves it). -/
def bodyFields (b : CompileRequestBody) : List (String × JsonVal) :=
  [("source", .str b.source),
   ("demangle", .bool b.demangle),
   ("optimize", .bool b.optimize),
   ("moduleOptimize", .bool b.moduleOptimize),
   ("parseAsLibrary", .bool b.parseAsLibrary)]

/-- The client state touched by runCompile, translated from the useState and
useRef hooks in App.tsx. -/
structure AppState where
  source : String
  demangle : Bool
  optimize : Bool
  wholeModule : Bool
  parseAsLibrary : Bool
  loading : Bool
  results : Option (ViewKey → CompileResult)
  error : Option String
  lastRunSignature : Option CompileRequestBody

/-- The whitespace trim applied by the JS String trim method (and by the
backend validator on the source): drop leading and trailing whitespace
characters.  Written structurally over the character list so that it
evaluates on concrete inputs. -/
def jsTrim (s : String) : String :=
  String.mk (((s.data.dropWhile Char.isWhitespace).reverse.dropWhile Char.isWhitespace).reverse)

/-- Translated from runDisabled in App.tsx. -/
def runDisabled (s : AppState) : Bool :=
  s.loading || (jsTrim s.source).length == 0

/-- The outcome of the fetch to /api/compile, as observed by runCompile:
either an ok response carrying the parsed payload, a non-ok HTTP response
(status and response text), or a thrown error whose final message is as the
catch block computes it (err.message for Error values, the fixed fallback
text otherwise). -/
inductive FetchOutcome
  | ok (payload : CompileResponse)
  | httpError (status : Nat) (message : String)
  | networkError (message : String)

/-- Whether the fetch outcome is the ok branch. -/
def FetchOutcome.isOk : FetchOutcome → Bool
  | .ok _ => true
  | .httpError _ _ => false
  | .networkError _ => false

/-- The error message runCompile stores for a failed fetch: for a non-ok
HTTP response the body text, or the status fallback when that text is empty
(the JS expression message or-else the template string); for a thrown error
its message. -/
def failureMessage : FetchOutcome → String
  | .ok _ => ""
  | .httpError status message =>
      if message = "" then "Request failed with " ++ toString status else message
  | .networkError message => message

/-- The run signature computed by runCompile in App.tsx: the JSON object of
the trimmed source and the four option flags.  JSON.stringify of that object
literal is injective on these field values, so the structured value stands
for the signature string. -/
def requestSignature (s : AppState) : CompileRequestBody :=
  { source := jsTrim s.source
    demangle := s.demangle
    optimize := s.optimize
    moduleOptimize := s.wholeModule
    parseAsLibrary := s.parseAsLibrary }

/-- The result of one runCompile call: the state after the async function
has finished (the finally block included), and the request body sent to
/api/compile, none when no fetch was issued. -/
structure RunOutput where
  state : AppState
  request : Option CompileRequestBody

/-- Translated from runCompile in App.tsx, one branch per control path:
empty trimmed source returns early with the validation message and clears
results and the signature; an unchanged signature with skipCache false
returns early doing nothing; otherwise the signature is stored, the body is
posted, and the ok / non-ok / thrown outcomes update the state as the
try/catch/finally does. -/
def runCompile (s : AppState) (skipCache : Bool) (fetch : FetchOutcome) : RunOutput :=
  let trimmedSource := jsTrim s.source
  if trimmedSource = "" then
    { state := { s with lastRunSignature := none
                        results := none
                        error := some "Source is required" }
      request := none }
  else
    let signature := requestSignature s
    if skipCache = false ∧ s.lastRunSignature = some signature then
      { state := s, request := none }
    else
      match fetch with
      | .ok payload =>
          { state := { s with lastRunSignature := some signature
                              loading := false
                              error := none
                              results := some payload.results }
            request := some signature }
      | .httpError status message =>
          { state := { s with lastRunSignature := none
                              loading := false
                              error := some (failureMessage (.httpError status message)) }
            request := some signature }
      | .networkError message =>
          { state := { s with lastRunSignature := none
                              loading := false
                              error := some (failureMessage (.networkError message)) }
            request := some signature }

/-- Modelled from the spec: the per-request compiler options of a
CompileRequest (spec section 3) — demangle, optimize,
wholeModuleOptimization, parseAsLibrary.  The backend that consumes them is
under web/backend in the real repository and is missing from the provided
sources. -/
structure CompileOptions where
  demangle : Bool
  optimize : Bool
  wholeModuleOptimization : Bool
  parseAsLibrary : Bool
deriving DecidableEq

/-- Modelled from the spec: a CompileRequest (spec section 3) — source text
plus options. -/
structure CompileRequest where
  source : String
  options : CompileOptions

/-- Modelled from the spec: a StageSpec (spec section 3) — stable key,
display label, the stage-specific base arguments its pure argument builder
starts from, whether the optimization flags apply to it (spec section 4.2:
optimize affects the canonical intermediate form, low-level IR and assembly
stages only), and whether its output is eligible for demangling.  The real
definitions live in the missing web/backend sources. -/
structure StageSpec where
  key : ViewKey
  label : String
  baseArgs : List String
  optimizable : Bool
  demangleEligible : Bool

/-- Modelled from the spec: the fixed six-entry ordered Stage Catalog (spec
sections 3 and 4.2): raw intermediate representation, canonical
intermediate representation, abstract syntax tree, parse-only, low-level
IR, assembly.  Demangling eligibility follows spec section 4.3: symbol
bearing outputs (the two SIL forms, IR, assembly) are eligible, parse and
AST diagnostics are not. -/
def stageCatalog : List StageSpec :=
  [ { key := .silRaw, label := "SIL Raw", baseArgs := ["-emit-silgen"],
      optimizable := false, demangleEligible := true },
    { key := .silCanonical, label := "SIL Canonical", baseArgs := ["-emit-sil"],
      optimizable := true, demangleEligible := true },
    { key := .ast, label := "AST", baseArgs := ["-dump-ast"],
      optimizable := false, demangleEligible := false },
    { key := .parse, label := "Parse", baseArgs := ["-dump-parse"],
      optimizable := false, demangleEligible := false },
    { key := .ir, label := "IR", baseArgs := ["-emit-ir"],
      optimizable := true, demangleEligible := true },
    { key := .assembly, label := "Assembly", baseArgs := ["-emit-assembly"],
      optimizable := true, demangleEligible := true } ]

/-- Modelled from the spec: the pure per-stage argument builder (spec
section 4.2).  optimize adds the optimization flag on optimizable stages;
wholeModuleOptimization adds whole-module mode, a no-op unless optimize is
also set; parseAsLibrary changes the entry-point convention flag for every
stage; demangle never changes the arguments. -/
def buildArgs (spec : StageSpec) (o : CompileOptions) : List String :=
  spec.baseArgs
    ++ (if spec.optimizable ∧ o.optimize then ["-O"] else [])
    ++ (if spec.optimizable ∧ o.optimize ∧ o.wholeModuleOptimization then ["-wmo"] else [])
    ++ (if o.parseAsLibrary then ["-parse-as-library"] else [])

/-- Modelled from the spec: the full argument vector recorded in a
StageResult — the fixed pre-approved executable, the stage arguments, and
stdin as the source channel (spec sections 4.1 and 4.2: source text is
never interpolated into the arguments, so the vector is a pure function of
the options). -/
def stageCommand (spec : StageSpec) (o : CompileOptions) : List String :=
  "swiftc" :: buildArgs spec o ++ ["-"]

/-- Modelled from the spec: the Process Runner outcomes (spec section 4.1):
a completed run with a real exit code and combined output, or Timeout,
LaunchFailure, IOFailure. -/
inductive RunOutcome
  | completed (exitCode : Int) (output : String)
  | timeout
  | launchFailure (message : String)
  | ioFailure (message : String)

/-- Modelled from the spec: a StageResult (spec section 3) — label, exact
command vector, exit code (0 means the tool reported success, a sentinel
nonzero value when the invocation could not even start), and output. -/
structure StageResult where
  label : String
  command : List String
  exitCode : Int
  output : String

/-- Modelled from the spec: the Demangling Post-Processor (spec section
4.3).  When demangling is requested and the stage is eligible, the
demangler collaborator filters the output; should that collaborator fail
(none), the raw text is kept.  Otherwise the raw output is returned
unchanged. -/
def postProcess (rawOutput : String) (stageEligible : Bool) (demangleRequested : Bool)
    (demangler : String → Option String) : String :=
  if demangleRequested ∧ stageEligible then
    match demangler rawOutput with
    | some t => t
    | none => rawOutput
  else
    rawOutput

/-- Modelled from the spec: conversion of one Process Runner outcome into a
StageResult (spec sections 4.4 step 4 and 7): a completed run keeps its
exit code and post-processed output; timeout and launch/IO failures become
a sentinel nonzero exit code with a descriptive message; the command field
always records the vector that was (to be) run. -/
def stageResultOf (spec : StageSpec) (o : CompileOptions) (outcome : RunOutcome)
    (demangler : String → Option String) : StageResult :=
  match outcome with
  | .completed code out =>
      { label := spec.label, command := stageCommand spec o, exitCode := code,
        output := postProcess out spec.demangleEligible o.demangle demangler }
  | .timeout =>
      { label := spec.label, command := stageCommand spec o, exitCode := -1,
        output := "stage timed out" }
  | .launchFailure message =>
      { label := spec.label, command := stageCommand spec o, exitCode := -1,
        output := message }
  | .ioFailure message =>
      { label := spec.label, command := stageCommand spec o, exitCode := -1,
        output := message }

/-- Modelled from the spec: the Orchestrator (spec section 4.4).  It fails
only for an empty trimmed source; otherwise it builds, for every catalog
stage in order, the stage's command, runs it through the Process Runner
collaborator, and converts the outcome into that stage's entry of the
response mapping — one entry per StageSpec, whatever each outcome was. -/
def compile (req : CompileRequest) (runner : StageSpec → List String → RunOutcome)
    (demangler : String → Option String) :
    Except String (List (ViewKey × StageResult)) :=
  if jsTrim req.source = "" then
    .error "ValidationError: source is required"
  else
    .ok (stageCatalog.map fun spec =>
      (spec.key, stageResultOf spec req.options (runner spec (stageCommand spec req.options)) demangler))

/-- The per-stage command vectors of an assembled response, keyed by stage. -/
def commandMap (rs : List (ViewKey × StageResult)) : List (ViewKey × List String) :=
  rs.map fun p => (p.1, p.2.command)

/-- A concrete stage result used for sample payloads. -/
def sampleResult : CompileResult :=
  { label := "AST", command := "swiftc -dump-ast -", exitCode := 0, output := "ok" }

/-- A concrete payload assigning the same result to every stage key. -/
def samplePayload : CompileResponse :=
  { results := fun _ => sampleResult }

/-- A concrete client state with a non-empty source and default options. -/
def sampleState : AppState :=
  { source := "print(1)", demangle := false, optimize := false, wholeModule := false,
    parseAsLibrary := false, loading := false, results := none, error := none,
    lastRunSignature := none }

/-- A concrete client state whose source trims to empty. -/
def emptySourceState : AppState :=
  { sampleState with source := "   " }

/-- A concrete backend compile request with default options. -/
def sampleRequest : CompileRequest :=
  { source := "print(1)",
    options := { demangle := false, optimize := false, wholeModuleOptimization := false,
                 parseAsLibrary := false } }

/-- A second backend compile request: different source, same options. -/
def sampleRequest2 : CompileRequest :=
  { source := "print(2)",
    options := { demangle := false, optimize := false, wholeModuleOptimization := false,
                 parseAsLibrary := false } }

/-- A runner collaborator where every stage completes successfully. -/
def sampleRunner : StageSpec → List String → RunOutcome :=
  fun _ _ => .completed 0 "stage output"

/-- A runner collaborator where every stage fails to launch. -/
def failingRunner : StageSpec → List String → RunOutcome :=
  fun _ _ => .launchFailure "swiftc not found"

/-- A demangler collaborator that never rewrites anything. -/
def sampleDemangler : String → Option String :=
  fun _ => none

/-- The command field of a stage result is always the stage's command vector,
whatever the runner outcome was. -/
theorem stageResultOf_command (spec : StageSpec) (o : CompileOptions) (outcome : RunOutcome)
    (d : String → Option String) :
    (stageResultOf spec o outcome d).command = stageCommand spec o := by
  cases outcome <;> rfl

/-- A nonzero-exit status string never collides with the success string. -/
theorem exit_code_string_ne_success (t : String) : "Exit code " ++ t ≠ "Success" := by
  intro h
  have hlen := congrArg String.length h
  rw [String.length_append] at hlen
  have h10 : ("Exit code " : String).length = 10 := rfl
  have h7 : ("Success" : String).length = 7 := rfl
  omega

/-- Characterization of the request body runCompile sends: none when the
trimmed source is empty or the signature cache hits, the signature body
otherwise. -/
theorem runCompile_request (s : AppState) (skipCache : Bool) (f : FetchOutcome) :
    (runCompile s skipCache f).request
      = if jsTrim s.source = "" then none
        else if skipCache = false ∧ s.lastRunSignature = some (requestSignature s) then none
        else some (requestSignature s) := by
  by_cases he : jsTrim s.source = ""
  · simp [runCompile, he]
  · by_cases hc : skipCache = false ∧ s.lastRunSignature = some (requestSignature s)
    · simp [runCompile, he, hc]
    · cases f <;> simp [runCompile, he, hc]

/-- Characterization of a run whose fetch fails after being issued. -/
theorem runCompile_failure_state (s : AppState) (skipCache : Bool) (f : FetchOutcome)
    (hf : f.isOk = false) (he : jsTrim s.source ≠ "")
    (hc : ¬(skipCache = false ∧ s.lastRunSignature = some (requestSignature s))) :
    runCompile s skipCache f
      = { state := { s with lastRunSignature := none
                            loading := false
                            error := some (failureMessage f) }
          request := some (requestSignature s) } := by
  cases f
  · simp [FetchOutcome.isOk] at hf
  · simp [runCompile, he, hc]
  · simp [runCompile, he, hc]

/-- Claim C1: for every valid compile request (trimmed source non-empty),
the response mapping contains exactly the six fixed stage keys silRaw,
silCanonical, ast, parse, ir, assembly — never more and never fewer —
regardless of what each stage invocation did. -/
theorem C1_response_keys_complete (req : CompileRequest)
    (runner : StageSpec → List String → RunOutcome) (demangler : String → Option String)
    (h : jsTrim req.source ≠ "") :
    (compile req runner demangler).toOption.map (fun rs => rs.map Prod.fst)
      = some [ViewKey.silRaw, .silCanonical, .ast, .parse, .ir, .assembly] := by
  unfold compile
  rw [if_neg h]
  rfl

theorem C1_response_keys_complete_witness :
    jsTrim sampleRequest.source ≠ "" ∧
    (compile sampleRequest failingRunner sampleDemangler).toOption.map
        (fun rs => rs.map Prod.fst)
      = some [ViewKey.silRaw, .silCanonical, .ast, .parse, .ir, .assembly] :=
  ⟨by decide, C1_response_keys_complete sampleRequest failingRunner sampleDemangler (by decide)⟩

/-- Claim C2, counterexample: the body actually posted by runCompile does
not carry the field name wholeModuleOptimization — at this concrete state
its key list differs from the claimed one. -/
theorem C2_counterexample_body_field_names :
    ((runCompile sampleState true (.ok samplePayload)).request.map
        fun b => (bodyFields b).map Prod.fst)
      ≠ some ["source", "demangle", "optimize", "wholeModuleOptimization", "parseAsLibrary"] := by
  decide

/-- Claim C2 (amended): every request body the client submits has exactly
the field names source, demangle, optimize, moduleOptimize, parseAsLibrary
— the whole-module flag travels under the key moduleOptimize, not
wholeModuleOptimization. -/
theorem C2_request_body_field_names (s : AppState) (skipCache : Bool) (f : FetchOutcome)
    (b : CompileRequestBody) (h : (runCompile s skipCache f).request = some b) :
    (bodyFields b).map Prod.fst
      = ["source", "demangle", "optimize", "moduleOptimize", "parseAsLibrary"] ∧
    b = requestSignature s ∧
    (∀ payload, f = .ok payload →
      (runCompile s skipCache f).state.results = some payload.results) := by
  rw [runCompile_request] at h
  by_cases he : jsTrim s.source = ""
  · simp [he] at h
  · by_cases hc : skipCache = false ∧ s.lastRunSignature = some (requestSignature s)
    · simp [he, hc] at h
    · simp [he, hc] at h
      refine ⟨rfl, h.symm, ?_⟩
      intro payload hp
      subst hp
      simp [runCompile, he, hc]

theorem C2_request_body_field_names_witness :
    (runCompile sampleState true (.ok samplePayload)).request = some (requestSignature sampleState) ∧
    (bodyFields (requestSignature sampleState)).map Prod.fst
      = ["source", "demangle", "optimize", "moduleOptimize", "parseAsLibrary"] :=
  ⟨by decide,
   (C2_request_body_field_names sampleState true (.ok samplePayload)
     (requestSignature sampleState) (by decide)).1⟩

/-- Claim C3: whenever the source trims to empty, the client rejects the
run with the validation message, clears the displayed results, issues no
request, keeps the run button disabled, and the orchestrator likewise
rejects such a source with a validation error for every runner — zero stage
invocations are performed. -/
theorem C3_empty_source_rejected (s : AppState) (skipCache : Bool) (f : FetchOutcome)
    (h : jsTrim s.source = "") :
    (runCompile s skipCache f).request = none ∧
    (runCompile s skipCache f).state.error = some "Source is required" ∧
    (runCompile s skipCache f).state.results = none ∧
    runDisabled s = true ∧
    ∀ (opts : CompileOptions) (runner : StageSpec → List String → RunOutcome)
      (demangler : String → Option String),
      compile { source := s.source, options := opts } runner demangler
        = .error "ValidationError: source is required" := by
  refine ⟨?_, ?_, ?_, ?_, ?_⟩
  · rw [runCompile_request]
    simp [h]
  · simp [runCompile, h]
  · simp [runCompile, h]
  · unfold runDisabled
    rw [h]
    cases hl : s.loading <;> rfl
  · intro opts runner demangler
    simp only [compile]
    rw [if_pos h]

theorem C3_empty_source_rejected_witness :
    jsTrim emptySourceState.source = "" ∧
    (runCompile emptySourceState true (.ok samplePayload)).request = none :=
  ⟨by decide,
   (C3_empty_source_rejected emptySourceState true (.ok samplePayload) (by decide)).1⟩

/-- Claim C4, counterexample: from a fresh state, the first auto-run
submission issues a request, but resubmitting the identical source and
options (skipCache false) issues none — the second identical submission
performs no compilation, refuting the claim that both always compile. -/
theorem C4_counterexample_duplicate_submission_skipped :
    (runCompile sampleState false (.ok samplePayload)).request.isSome = true ∧
    (runCompile (runCompile sampleState false (.ok samplePayload)).state false
        (.ok samplePayload)).request = none := by
  constructor <;> decide

/-- Claim C4 (amended): the client holds no cached results, but it does
deduplicate submissions by a run signature: an explicit run (skipCache
true) on a non-empty source always issues a fresh request, while an
auto-run resubmission whose signature (trimmed source plus options) equals
the stored one issues no request. -/
theorem C4_resubmission_behavior (s : AppState) (f : FetchOutcome)
    (h : jsTrim s.source ≠ "") :
    (runCompile s true f).request = some (requestSignature s) ∧
    (s.lastRunSignature = some (requestSignature s) →
      (runCompile s false f).request = none) := by
  constructor
  · rw [runCompile_request]
    simp [h]
  · intro hsig
    rw [runCompile_request]
    simp [h, hsig]

theorem C4_resubmission_behavior_witness :
    jsTrim sampleState.source ≠ "" ∧
    (runCompile sampleState true (.ok samplePayload)).request
      = some (requestSignature sampleState) :=
  ⟨by decide, (C4_resubmission_behavior sampleState (.ok samplePayload) (by decide)).1⟩

/-- Claim C5: the status chip reports success exactly when the stage's
exitCode is 0 (a non-loading state with a result in hand), and a tab
carries the failure marker exactly when its result's exitCode is nonzero. -/
theorem C5_exit_code_zero_means_success (r : CompileResult) :
    (formatCommandStatus false (some r) = "Success" ↔ r.exitCode = 0) ∧
    (tabAlert (some r) = true ↔ r.exitCode ≠ 0) := by
  constructor
  · by_cases hc : r.exitCode = 0
    · simp [formatCommandStatus, hc]
    · simp [formatCommandStatus, hc, exit_code_string_ne_success]
  · show (r.exitCode != 0) = true ↔ r.exitCode ≠ 0
    simp [bne_iff_ne]

/-- The per-stage command vectors of a valid compile call depend only on the
request options: they are the catalog's commands built from those options,
whatever the source, runner and demangler were. -/
theorem compile_commands (req : CompileRequest)
    (runner : StageSpec → List String → RunOutcome) (demangler : String → Option String)
    (h : jsTrim req.source ≠ "") :
    (compile req runner demangler).toOption.map commandMap
      = some (stageCatalog.map fun spec => (spec.key, stageCommand spec req.options)) := by
  unfold compile
  rw [if_neg h]
  show some (commandMap _) = _
  refine congrArg some ?_
  unfold commandMap
  rw [List.map_map]
  simp [Function.comp, stageResultOf_command]

/-- Claim C6: the command vector recorded for each stage is a pure function
of the request options — two compile calls with identical options (any
sources, runners and demanglers) record byte-identical per-stage commands. -/
theorem C6_commands_deterministic (r1 r2 : CompileRequest)
    (run1 run2 : StageSpec → List String → RunOutcome)
    (d1 d2 : String → Option String)
    (hopts : r1.options = r2.options)
    (h1 : jsTrim r1.source ≠ "") (h2 : jsTrim r2.source ≠ "") :
    (compile r1 run1 d1).toOption.map commandMap
      = (compile r2 run2 d2).toOption.map commandMap := by
  rw [compile_commands r1 run1 d1 h1, compile_commands r2 run2 d2 h2, hopts]

theorem C6_commands_deterministic_witness :
    sampleRequest.options = sampleRequest2.options ∧
    jsTrim sampleRequest.source ≠ "" ∧
    jsTrim sampleRequest2.source ≠ "" ∧
    (compile sampleRequest sampleRunner sampleDemangler).toOption.map commandMap
      = (compile sampleRequest2 failingRunner sampleDemangler).toOption.map commandMap :=
  ⟨rfl, by decide, by decide,
   C6_commands_deterministic sampleRequest sampleRequest2 sampleRunner failingRunner
     sampleDemangler sampleDemangler rfl (by decide) (by decide)⟩

/-- Claim C7, counterexample: it is not the case that the stage catalog
order silRaw, silCanonical, ast, parse, ir, assembly is also the default
display order — VIEW_ORDER in App.tsx starts with the ast tab. -/
theorem C7_counterexample_display_order :
    ¬ (stageCatalog.map StageSpec.key
         = [ViewKey.silRaw, .silCanonical, .ast, .parse, .ir, .assembly] ∧
       VIEW_ORDER = stageCatalog.map StageSpec.key) := by
  decide

/-- Claim C7 (amended): the stage catalog is the fixed six-entry sequence
silRaw, silCanonical, ast, parse, ir, assembly, while the frontend's
default display order is the fixed sequence ast, parse, silRaw,
silCanonical, ir, assembly — a permutation of the catalog keys, not the
catalog order itself. -/
theorem C7_catalog_and_display_order :
    stageCatalog.map StageSpec.key
      = [ViewKey.silRaw, .silCanonical, .ast, .parse, .ir, .assembly] ∧
    VIEW_ORDER = [ViewKey.ast, .parse, .silRaw, .silCanonical, .ir, .assembly] ∧
    VIEW_ORDER.Perm (stageCatalog.map StageSpec.key) := by
  refine ⟨rfl, rfl, ?_⟩
  decide

/-- Claim C8: when demangling was not requested or the stage is not
eligible, the post-processor returns the raw output unchanged, whatever the
demangler collaborator would do. -/
theorem C8_postProcess_identity (rawOutput : String)
    (stageEligible demangleRequested : Bool) (demangler : String → Option String)
    (h : demangleRequested = false ∨ stageEligible = false) :
    postProcess rawOutput stageEligible demangleRequested demangler = rawOutput := by
  rcases h with h | h <;> simp [postProcess, h]

theorem C8_postProcess_identity_witness :
    (true = false ∨ false = false) ∧
    postProcess "output" false true (fun _ => some "CHANGED") = "output" :=
  ⟨Or.inr rfl,
   C8_postProcess_identity "output" false true (fun _ => some "CHANGED") (Or.inr rfl)⟩

/-- Claim C9: every request body the client actually submits carries the
whitespace-trimmed editor text as its source, and a request is only sent
when that trimmed text is non-empty. -/
theorem C9_request_source_trimmed (s : AppState) (skipCache : Bool) (f : FetchOutcome)
    (b : CompileRequestBody) (h : (runCompile s skipCache f).request = some b) :
    b.source = jsTrim s.source ∧ jsTrim s.source ≠ "" := by
  rw [runCompile_request] at h
  by_cases he : jsTrim s.source = ""
  · simp [he] at h
  · by_cases hc : skipCache = false ∧ s.lastRunSignature = some (requestSignature s)
    · simp [he, hc] at h
    · simp [he, hc] at h
      exact ⟨by rw [← h]; rfl, he⟩

theorem C9_request_source_trimmed_witness :
    (runCompile sampleState true (.ok samplePayload)).request
        = some (requestSignature sampleState) ∧
    (requestSignature sampleState).source = jsTrim sampleState.source ∧
    jsTrim sampleState.source ≠ "" :=
  ⟨by decide,
   C9_request_source_trimmed sampleState true (.ok samplePayload)
     (requestSignature sampleState) (by decide)⟩

/-- Claim C10: when a submitted run fails (non-ok HTTP response or thrown
fetch error), the client clears the stored run signature (so an identical
retry re-issues the request), stores the failure message as the error,
leaves the previously displayed results unchanged, and ends with the
loading flag false. -/
theorem C10_failed_run_state (s : AppState) (skipCache : Bool) (f : FetchOutcome)
    (hreq : (runCompile s skipCache f).request ≠ none) (hf : f.isOk = false) :
    (runCompile s skipCache f).state.lastRunSignature = none ∧
    (runCompile s skipCache f).state.error = some (failureMessage f) ∧
    (runCompile s skipCache f).state.results = s.results ∧
    (runCompile s skipCache f).state.loading = false := by
  by_cases he : jsTrim s.source = ""
  · rw [runCompile_request] at hreq
    simp [he] at hreq
  · by_cases hc : skipCache = false ∧ s.lastRunSignature = some (requestSignature s)
    · rw [runCompile_request] at hreq
      simp [he, hc] at hreq
    · rw [runCompile_failure_state s skipCache f hf he hc]
      exact ⟨rfl, rfl, rfl, rfl⟩

theorem C10_failed_run_state_witness :
    (runCompile sampleState true (.httpError 500 "boom")).request ≠ none ∧
    (FetchOutcome.httpError 500 "boom").isOk = false ∧
    ((runCompile sampleState true (.httpError 500 "boom")).state.lastRunSignature = none ∧
     (runCompile sampleState true (.httpError 500 "boom")).state.error
        = some (failureMessage (.httpError 500 "boom")) ∧
     (runCompile sampleState true (.httpError 500 "boom")).state.results
        = sampleState.results ∧
     (runCompile sampleState true (.httpError 500 "boom")).state.loading = false) :=
  ⟨by decide, rfl,
   C10_failed_run_state sampleState true (.httpError 500 "boom") (by decide) rfl⟩
